import Mathlib

/-!
Shallow embedding of the client-side authentication session lifecycle of the
admin dashboard, covering the two deployment variants present in the source:

* Variant 1 (session-only, numeric roles): `src/contexts/AuthContext.tsx`
  together with `src/services/authApi.ts` (`AuthApiService.login`,
  `AuthApiService.getCurrentAdmin`, `AuthApiService.validateToken`) and the
  route guard `src/components/auth/ProtectedRoute.tsx`.
* Variant 2 (localStorage-persisted, string roles + permissions): the
  `AuthProvider` using `TOKEN_KEY`/`ADMIN_KEY` storage
  (`saveToStorage`/`clearStorage`/`loadFromStorage`, `login`, `logout`,
  `validateExistingToken`, `hasRole`/`hasPermission`/`isSuperAdmin`) and the
  route guard `src/components/ProtectedRoute.tsx`.

Remote identity-service behaviour is an explicit input to each operation
(success / HTTP error / network error), mirroring the `fetch` outcomes the
TypeScript code distinguishes.  React state cells (`admin`, `token`,
`isLoading`, `error`) become record fields updated by pure functions; a
thrown (re-thrown) error becomes an `Option String` result component.
JavaScript string truthiness (`!s` is true for `undefined` and `""`) is
modelled by `jsTruthy` on `Option String`.
-/

namespace Variant1

/-- `Admin` of `src/services/authApi.ts` (numeric role: 0 = Super Admin,
1 = Admin). -/
structure Admin where
  id : String
  name : String
  username : String
  role : Int
  createdAt : String
  updatedAt : String
deriving DecidableEq

/-- `LoginResponse` of `src/services/authApi.ts`. -/
structure LoginResponse where
  access_token : String
  userRole : Int
deriving DecidableEq

/-- Outcome of a `fetch` call as `AuthApiService.login` distinguishes them:
the promise (or `response.json()`) rejects; the response is non-ok with a
parsed body whose `message` field is modelled with `""` for absent/empty
(both are falsy in `data.message || ...`); or the response is ok with a
well-formed body. -/
inductive FetchOutcome (β : Type) where
  | netError (msg : String)
  | httpError (status : Nat) (statusText : String) (message : String)
  | ok (body : β)
deriving DecidableEq

/-- `AuthApiService.login`: on non-ok throws `data.message` (or the
`HTTP status: statusText` fallback when that is falsy), every failure is
re-wrapped as `Login failed: ...`. -/
def authApiLogin (svc : FetchOutcome LoginResponse) : Except String LoginResponse :=
  match svc with
  | .netError m => .error ("Login failed: " ++ m)
  | .httpError status statusText message =>
      .error ("Login failed: " ++
        (if message == "" then "HTTP " ++ toString status ++ ": " ++ statusText
         else message))
  | .ok body => .ok body

/-- Outcome of the `GET /admin/me` fetch as `AuthApiService.getCurrentAdmin`
distinguishes them; on a non-ok response the thrown message depends on
whether the parsed body has an `admin` field. -/
inductive MeOutcome where
  | netError (msg : String)
  | httpError (bodyHasAdmin : Bool)
  | ok (admin : Admin)
deriving DecidableEq

/-- `AuthApiService.getCurrentAdmin`: non-ok throws
`Invalid admin token` / `Admin access token required`, every failure is
re-wrapped as `Failed to get admin info: ...`. -/
def getCurrentAdmin (svc : MeOutcome) : Except String Admin :=
  match svc with
  | .netError m => .error ("Failed to get admin info: " ++ m)
  | .httpError bodyHasAdmin =>
      .error ("Failed to get admin info: " ++
        (if bodyHasAdmin then "Invalid admin token" else "Admin access token required"))
  | .ok a => .ok a

/-- The React state cells of the session-only `AuthProvider`
(`src/contexts/AuthContext.tsx`): `admin`, `token`, `isLoading`, `error`. -/
structure State where
  admin : Option Admin
  token : Option String
  isLoading : Bool
  error : Option String
deriving DecidableEq

/-- `isAuthenticated = admin !== null && token !== null`. -/
def isAuthenticated (s : State) : Bool :=
  s.admin.isSome && s.token.isSome

/-- `clearAuthState`: sets `admin`, `token` and `error` to null. -/
def clearAuthState (s : State) : State :=
  { s with admin := none, token := none, error := none }

/-- `login(username, password)` of the session-only provider: sets loading,
clears the error, calls `authApiService.login` then
`authApiService.getCurrentAdmin`; on success stores the profile and token;
on any failure sets the error message, then calls `clearAuthState` (which
also resets the error) and re-throws; `finally` clears the loading flag.
The result pairs the final state with the re-thrown error message, if any. -/
def login (s : State) (svcLogin : FetchOutcome LoginResponse) (svcMe : MeOutcome) :
    State × Option String :=
  let s1 : State := { s with isLoading := true, error := none }
  match authApiLogin svcLogin with
  | .error e =>
      ({ clearAuthState { s1 with error := some e } with isLoading := false }, some e)
  | .ok resp =>
      match getCurrentAdmin svcMe with
      | .error e =>
          ({ clearAuthState { s1 with error := some e } with isLoading := false }, some e)
      | .ok adminProfile =>
          ({ s1 with admin := some adminProfile, token := some resp.access_token,
                     isLoading := false }, none)

/-- `logout()` of the session-only provider: clears local state (there is no
server logout in this variant); `finally` clears the loading flag. -/
def logout (s : State) : State :=
  { clearAuthState s with isLoading := false }

/-- `hasRole(role)`: `admin?.role === role`. -/
def hasRole (s : State) (role : Int) : Bool :=
  match s.admin with
  | none => false
  | some a => a.role == role

/-- `isSuperAdmin()`: `admin?.role === 0`. -/
def isSuperAdmin (s : State) : Bool :=
  match s.admin with
  | none => false
  | some a => a.role == 0

/-- `isRegularAdmin()`: `admin?.role === 1`. -/
def isRegularAdmin (s : State) : Bool :=
  match s.admin with
  | none => false
  | some a => a.role == 1

/-- `getRoleName()`: `Guest` without an admin, else by the numeric role. -/
def getRoleName (s : State) : String :=
  match s.admin with
  | none => "Guest"
  | some a => if a.role == 0 then "Super Admin" else "Admin"

/-- The state after mount with no stored session: the initial state with the
loading flag lowered by the mount effect. -/
def initialState : State :=
  { admin := none, token := none, isLoading := false, error := none }

end Variant1

/-- JavaScript truthiness of an optional string: `undefined` and `""` are
falsy (`!token`, `!adminDataJson`, `response.message || ...`). -/
def jsTruthy : Option String → Bool
  | none => false
  | some s => !(s == "")

namespace Variant2

/-- `Admin` of the string-role variant (`AuthContextDefinition`): string
role plus optional name and permission list. -/
structure Admin where
  id : String
  email : String
  role : String
  name : Option String
  permissions : Option (List String)
deriving DecidableEq

/-- What `JSON.parse(adminDataJson)` can yield besides `null` when it does
not throw, as the consuming code can observe it (the cast `as Admin`
performs no validation): a non-null falsy primitive (`0`, `false` or `""`),
a truthy value that is not an Admin record (other numbers, `true`,
non-empty strings, arrays, objects without the Admin fields), or an Admin
record. -/
inductive LoadedAdmin where
  | falsyPrim
  | junk
  | ofAdmin (a : Admin)
deriving DecidableEq

/-- JavaScript `!adminData` on a loaded non-null value: only the non-null
falsy primitives (`0`, `false`, `""`) are falsy. -/
def loadedFalsy : LoadedAdmin → Bool
  | .falsyPrim => true
  | .junk => false
  | .ofAdmin _ => false

/-- The string stored under `ADMIN_KEY`, classified by what `JSON.parse`
does with it: the empty string (falsy, never parsed); a non-empty string
`JSON.parse` rejects; a non-empty string parsing to `null` (the string
`null`); a non-empty string parsing to a non-null falsy primitive (such as
`0`, `false`, or a quoted empty string); a non-empty string parsing to a
truthy value that is not an Admin record; or a serialization of an `Admin`
(`JSON.stringify` of an admin record is non-empty and parses back to an
equivalent record). -/
inductive StoredAdmin where
  | emptyStr
  | corrupt
  | parsedNull
  | parsedFalsy
  | parsedJunk
  | parsed (a : Admin)
deriving DecidableEq

/-- The two `localStorage` entries, `TOKEN_KEY` and `ADMIN_KEY`
(`none` = key absent). -/
structure Storage where
  token : Option String
  adminData : Option StoredAdmin
deriving DecidableEq

/-- `saveToStorage(token, adminData)`: `setItem(TOKEN_KEY, token)` and
`setItem(ADMIN_KEY, JSON.stringify(adminData))`. -/
def saveToStorage (_st : Storage) (token : String) (adminData : Admin) : Storage :=
  { token := some token, adminData := some (.parsed adminData) }

/-- `clearStorage()`: removes both keys. -/
def clearStorage (_st : Storage) : Storage :=
  { token := none, adminData := none }

/-- `loadFromStorage()`: reads both keys; if either string is falsy, returns
`(null, null)` without touching storage; `JSON.parse` failure is caught,
storage is cleared and `(null, null)` returned; otherwise the token and the
parse result are returned as-is — a stored `null` comes back as a null
admin, and falsy or non-Admin parse results are returned unvalidated, in
every such case without clearing.  The result pairs the returned
`(token, adminData)` with the storage as the call leaves it (`none` in the
returned pair is JS `null`). -/
def loadFromStorage (st : Storage) : (Option String × Option LoadedAdmin) × Storage :=
  match st.token, st.adminData with
  | some tok, some sa =>
      if tok == "" then ((none, none), st)
      else
        match sa with
        | .emptyStr => ((none, none), st)
        | .corrupt => ((none, none), clearStorage st)
        | .parsedNull => ((some tok, none), st)
        | .parsedFalsy => ((some tok, some .falsyPrim), st)
        | .parsedJunk => ((some tok, some .junk), st)
        | .parsed a => ((some tok, some (.ofAdmin a)), st)
  | _, _ => ((none, none), st)

/-- The React state cells of the persisted `AuthProvider` (`admin`,
`isLoading`, `error` — this variant keeps no token cell in memory),
together with the `localStorage` contents it manipulates. -/
structure State where
  admin : Option Admin
  isLoading : Bool
  error : Option String
  storage : Storage
deriving DecidableEq

/-- `isAuthenticated = admin !== null` (this variant checks only the
identity cell). -/
def isAuthenticated (s : State) : Bool :=
  s.admin.isSome

/-- Body of the login response this variant consumes:
`{success, token, admin, message}`. -/
structure LoginResponse where
  success : Bool
  token : Option String
  admin : Option Admin
  message : Option String
deriving DecidableEq

/-- Body of the validate response this variant consumes:
`{success, admin, message}`. -/
structure ValidateResponse where
  success : Bool
  admin : Option Admin
  message : Option String
deriving DecidableEq

/-- Outcome of an awaited identity-service call: the promise rejects with an
error message, or resolves to a body. -/
inductive ApiCall (β : Type) where
  | throw (msg : String)
  | reply (body : β)
deriving DecidableEq

/-- `response.message || fallback` (JS: absent or empty message is falsy). -/
def respMessage (message : Option String) (fallback : String) : String :=
  match message with
  | some m => if m == "" then fallback else m
  | none => fallback

/-- `login(email, password)` of the persisted provider: sets loading, clears
the error, awaits the service; throws when
`!response.success || !response.token || !response.admin`; on success stores
the admin in state and saves token+admin to storage; the catch sets the
error message, clears the admin and the storage and re-throws; `finally`
clears the loading flag.  The result pairs the final state with the
re-thrown error message, if any. -/
def login (s : State) (svc : ApiCall LoginResponse) : State × Option String :=
  let s1 : State := { s with isLoading := true, error := none }
  let fail : String → State × Option String := fun m =>
    ({ s1 with error := some m, admin := none,
               storage := clearStorage s1.storage, isLoading := false }, some m)
  match svc with
  | .throw m => fail m
  | .reply r =>
      match r.success, r.token, r.admin with
      | true, some tok, some a =>
          if tok == "" then fail (respMessage r.message "Login failed - invalid response")
          else ({ s1 with admin := some a,
                          storage := saveToStorage s1.storage tok a,
                          isLoading := false }, none)
      | _, _, _ => fail (respMessage r.message "Login failed - invalid response")

/-- `logout()` of the persisted provider: reads the stored token and, when
present, fires a best-effort server logout whose rejection is swallowed by
`.catch` — so its outcome (`serverLogoutOk`) cannot influence the result;
then clears the admin, the storage and the error; `finally` clears the
loading flag. -/
def logout (s : State) (_serverLogoutOk : Bool) : State :=
  { s with admin := none, storage := clearStorage s.storage,
           error := none, isLoading := false }

/-- `validateExistingToken()`: sets loading, loads from storage (which may
self-heal corrupt entries); when either loaded value is JS-falsy (missing,
null, or a falsy parse result) it only lowers the loading flag; otherwise
it awaits `validateToken` and on `response.success && response.admin`
stores the refreshed admin and re-saves storage, while every other outcome
(error response, missing admin, thrown error) lands in the catch, which
clears admin and storage and sets the error to null; `finally` clears the
loading flag. -/
def validateExistingToken (s : State) (svc : ApiCall ValidateResponse) : State :=
  let s1 : State := { s with isLoading := true }
  let ld := loadFromStorage s1.storage
  let s2 : State := { s1 with storage := ld.2 }
  match ld.1.1, ld.1.2 with
  | some tok, some v =>
      if loadedFalsy v then { s2 with isLoading := false }
      else
        (match svc with
         | .reply r =>
             (match r.success, r.admin with
              | true, some a =>
                  { s2 with admin := some a,
                            storage := saveToStorage s2.storage tok a,
                            isLoading := false }
              | _, _ =>
                  { s2 with admin := none, storage := clearStorage s2.storage,
                            error := none, isLoading := false })
         | .throw _ =>
             { s2 with admin := none, storage := clearStorage s2.storage,
                       error := none, isLoading := false })
  | _, _ => { s2 with isLoading := false }

/-- `hasRole(role)`: `admin?.role === role` (case-sensitive). -/
def hasRole (s : State) (role : String) : Bool :=
  match s.admin with
  | none => false
  | some a => a.role == role

/-- `hasPermission(permission)`:
`admin?.permissions?.includes(permission) || false`. -/
def hasPermission (s : State) (permission : String) : Bool :=
  match s.admin with
  | none => false
  | some a =>
      match a.permissions with
      | none => false
      | some ps => ps.contains permission

/-- `isSuperAdmin()`:
`admin?.role === 'super_admin' || admin?.role === 'superadmin'`. -/
def isSuperAdmin (s : State) : Bool :=
  match s.admin with
  | none => false
  | some a => a.role == "super_admin" || a.role == "superadmin"

end Variant2

/-- What the numeric-role route guard
(`src/components/auth/ProtectedRoute.tsx`) decides to render. -/
inductive GuardView1 where
  | loading
  | loginPage
  | accessDenied
  | content
deriving DecidableEq

/-- JavaScript truthiness of the optional numeric `requiredRole` prop:
`undefined` and `0` are falsy in `if (requiredRole && ...)`. -/
def jsTruthyInt : Option Int → Bool
  | none => false
  | some n => !(n == 0)

/-- `ProtectedRoute` of the numeric-role variant: loading spinner while
`isLoading`; login page when not authenticated; the access-denied card when
`requiredRole && !hasRole(requiredRole) && !isSuperAdmin()`; otherwise the
protected children. -/
def protectedRoute1 (s : Variant1.State) (requiredRole : Option Int) : GuardView1 :=
  if s.isLoading then .loading
  else if !Variant1.isAuthenticated s then .loginPage
  else if jsTruthyInt requiredRole
          && !Variant1.hasRole s (requiredRole.getD 0)
          && !Variant1.isSuperAdmin s then .accessDenied
  else .content

/-- What the string-role route guard (`src/components/ProtectedRoute.tsx`)
decides to render. -/
inductive GuardView2 where
  | loading
  | loginPage
  | accessDenied
  | insufficientPermissions
  | content
deriving DecidableEq

/-- `ProtectedRoute` of the string-role variant: loading spinner while
`isLoading`; login page when not authenticated; access-denied when
`requiredRole && !hasRole(requiredRole) && !isSuperAdmin()`; the
insufficient-permissions card when
`requiredPermission && !hasPermission(requiredPermission) && !isSuperAdmin()`;
otherwise the protected children. -/
def protectedRoute2 (s : Variant2.State)
    (requiredRole requiredPermission : Option String) : GuardView2 :=
  if s.isLoading then .loading
  else if !Variant2.isAuthenticated s then .loginPage
  else if jsTruthy requiredRole
          && !Variant2.hasRole s (requiredRole.getD "")
          && !Variant2.isSuperAdmin s then .accessDenied
  else if jsTruthy requiredPermission
          && !Variant2.hasPermission s (requiredPermission.getD "")
          && !Variant2.isSuperAdmin s then .insufficientPermissions
  else .content

namespace Variant2

/-- The states the persisted provider can be in: a process start (empty
memory cells, loading flag raised, arbitrary pre-existing storage) followed
by any sequence of `login`, `logout` and `validateExistingToken` calls,
each with any identity-service behaviour. -/
inductive Reachable : State → Prop where
  | start (stor : Storage) :
      Reachable { admin := none, isLoading := true, error := none, storage := stor }
  | loginStep {s : State} (svc : ApiCall LoginResponse) :
      Reachable s → Reachable (login s svc).1
  | logoutStep {s : State} (serverLogoutOk : Bool) :
      Reachable s → Reachable (logout s serverLogoutOk)
  | validateStep {s : State} (svc : ApiCall ValidateResponse) :
      Reachable s → Reachable (validateExistingToken s svc)

/-- The session/storage coupling the operations maintain: whenever the
memory cell holds an admin, storage holds a truthy token and a parseable
serialized admin (the operations only set `admin` together with
`saveToStorage`). -/
def Coupled (s : State) : Prop :=
  s.admin.isSome = true →
    jsTruthy s.storage.token = true ∧ ∃ a, s.storage.adminData = some (.parsed a)

theorem coupled_login (s : State) (svc : ApiCall LoginResponse) :
    Coupled (login s svc).1 := by
  intro h
  rcases svc with m | r
  · simp [login] at h
  · rcases r with ⟨succ, tok?, adm?, msg?⟩
    cases succ <;> rcases tok? with _ | tok <;> rcases adm? with _ | a <;>
      simp [login] at h ⊢
    by_cases htok : tok = ""
    · simp [htok] at h
    · simp only [htok, if_false]
      exact ⟨by simp [saveToStorage, jsTruthy, htok], a, by simp [saveToStorage]⟩

theorem coupled_logout (s : State) (b : Bool) : Coupled (logout s b) := by
  intro h
  simp [logout] at h

theorem coupled_validate (s : State) (svc : ApiCall ValidateResponse)
    (hs : Coupled s) : Coupled (validateExistingToken s svc) := by
  rcases s with ⟨adm, ld, err, tok?, sa?⟩
  rcases tok? with _ | tok
  · -- TOKEN_KEY absent: early return, storage untouched
    simp only [Coupled, validateExistingToken, loadFromStorage] at hs ⊢
    exact hs
  · rcases sa? with _ | sa
    · -- ADMIN_KEY absent: early return, storage untouched
      simp only [Coupled, validateExistingToken, loadFromStorage] at hs ⊢
      exact hs
    · by_cases htok : tok = ""
      · -- stored token is the empty string (falsy): early return
        simp only [Coupled, validateExistingToken, loadFromStorage, htok] at hs ⊢
        simpa using hs
      · cases sa with
        | emptyStr =>
            simp only [Coupled, validateExistingToken, loadFromStorage] at hs ⊢
            simpa [htok] using hs
        | corrupt =>
            -- load self-heals: storage cleared, admin cell unchanged; the
            -- incoming coupling rules out a present admin here
            intro h
            have h' : adm.isSome = true := by
              simpa [validateExistingToken, loadFromStorage, htok] using h
            rcases hs h' with ⟨-, a, ha⟩
            simp at ha
        | parsedNull =>
            -- stored string parses to null: early return, storage untouched
            simp only [Coupled, validateExistingToken, loadFromStorage] at hs ⊢
            simpa [htok] using hs
        | parsedFalsy =>
            -- stored string parses to a falsy primitive: early return,
            -- storage untouched
            simp only [Coupled, validateExistingToken, loadFromStorage] at hs ⊢
            simpa [htok, loadedFalsy] using hs
        | parsedJunk =>
            -- truthy non-Admin parse result: validation proceeds and either
            -- re-saves a fresh admin or clears everything
            rcases svc with m | r
            · intro h
              simp [validateExistingToken, loadFromStorage, loadedFalsy, htok] at h
            · rcases r with ⟨succ, adm?, msg?⟩
              cases succ <;> rcases adm? with _ | a1 <;>
                intro h <;>
                simp [validateExistingToken, loadFromStorage, loadedFalsy, htok] at h ⊢
              exact ⟨by simp [saveToStorage, jsTruthy, htok],
                     a1, by simp [saveToStorage]⟩
        | parsed a0 =>
            rcases svc with m | r
            · intro h
              simp [validateExistingToken, loadFromStorage, loadedFalsy, htok] at h
            · rcases r with ⟨succ, adm?, msg?⟩
              cases succ <;> rcases adm? with _ | a1 <;>
                intro h <;>
                simp [validateExistingToken, loadFromStorage, loadedFalsy, htok] at h ⊢
              exact ⟨by simp [saveToStorage, jsTruthy, htok],
                     a1, by simp [saveToStorage]⟩

/-- Every reachable state of the persisted provider satisfies the
session/storage coupling. -/
theorem reachable_coupled {s : State} (hr : Reachable s) : Coupled s := by
  induction hr with
  | start stor => intro h; simp at h
  | loginStep svc _ _ => exact coupled_login _ svc
  | logoutStep b _ _ => exact coupled_logout _ b
  | validateStep svc _ ih => exact coupled_validate _ svc ih

/-- An identity-service validate outcome that rejects the stored credential:
the call rejects, or the reply is unsuccessful or lacks an admin (both land
in the catch of `validateExistingToken`). -/
def RejectsValidate (svc : ApiCall ValidateResponse) : Prop :=
  match svc with
  | .throw _ => True
  | .reply r => r.success = false ∨ r.admin = none

end Variant2

/-- A concrete string-role admin used to evaluate the theorems on concrete
inputs. -/
def sampleAdmin2 : Variant2.Admin :=
  { id := "1", email := "admin@example.com", role := "admin",
    name := none, permissions := none }

/-- A concrete numeric-role admin used to evaluate the theorems on concrete
inputs. -/
def sampleAdmin1 : Variant1.Admin :=
  { id := "1", name := "Admin One", username := "admin1", role := 0,
    createdAt := "2024-01-01", updatedAt := "2024-01-01" }

/-- C1: a Session is reported authenticated iff both Identity and Credential
are present, in both variants.  The session-only provider checks both cells
directly; the persisted provider checks only the admin cell, but on every
reachable state the admin cell is populated only together with a truthy
stored token, so no reachable state exposes an Identity whose Credential has
been cleared. -/
theorem C1_authenticated_iff_identity_and_credential :
    (∀ s : Variant1.State,
        Variant1.isAuthenticated s = true ↔
          s.admin.isSome = true ∧ s.token.isSome = true) ∧
    (∀ s : Variant2.State, Variant2.Reachable s →
        (Variant2.isAuthenticated s = true ↔
          s.admin.isSome = true ∧ jsTruthy s.storage.token = true)) := by
  constructor
  · intro s
    simp [Variant1.isAuthenticated]
  · intro s hr
    constructor
    · intro h
      exact ⟨h, (Variant2.reachable_coupled hr h).1⟩
    · intro h
      exact h.1

theorem C1_witness :
    Variant2.isAuthenticated
        (Variant2.login
          { admin := none, isLoading := true, error := none,
            storage := { token := none, adminData := none } }
          (.reply { success := true, token := some "tok-A",
                    admin := some sampleAdmin2, message := none })).1 = true ∧
      jsTruthy
        (Variant2.login
          { admin := none, isLoading := true, error := none,
            storage := { token := none, adminData := none } }
          (.reply { success := true, token := some "tok-A",
                    admin := some sampleAdmin2, message := none })).1.storage.token = true := by
  have h := (C1_authenticated_iff_identity_and_credential).2
    (Variant2.login
      { admin := none, isLoading := true, error := none,
        storage := { token := none, adminData := none } }
      (.reply { success := true, token := some "tok-A",
                admin := some sampleAdmin2, message := none })).1
    (Variant2.Reachable.loginStep
      (.reply { success := true, token := some "tok-A",
                admin := some sampleAdmin2, message := none })
      (Variant2.Reachable.start { token := none, adminData := none }))
  exact ⟨by decide, (h.mp (by decide)).2⟩

/-- C2 (code bug): at a failing login in the session-only provider the
Session ends fully empty and the error is re-thrown, but the Session error
field ends `null`, not the human-readable message: the catch runs
`setError(errorMessage)` and then `clearAuthState()`, which resets the error
to null again, so the Login form (which renders the context error) never
shows the inline message.  Evaluated at a service reply of HTTP 401 with
body message `Invalid credentials`. -/
theorem C2_login_failure_error_field_cleared :
    Variant1.login Variant1.initialState
        (.httpError 401 "Unauthorized" "Invalid credentials")
        (.httpError false)
      = ({ admin := none, token := none, isLoading := false, error := none },
         some "Login failed: Invalid credentials") := by
  decide

/-- C3: whenever the identity service accepts the submitted credentials —
in the session-only variant both the login call and the follow-up who-am-I
call succeed, in the persisted variant the reply carries `success` with a
(non-empty) token and an admin — `login` ends with Identity and Credential
set, authenticated, and nothing thrown. -/
theorem C3_valid_login_authenticates :
    (∀ (s : Variant1.State) (resp : Variant1.LoginResponse) (a : Variant1.Admin),
        (Variant1.login s (.ok resp) (.ok a)).1.admin = some a ∧
        (Variant1.login s (.ok resp) (.ok a)).1.token = some resp.access_token ∧
        Variant1.isAuthenticated (Variant1.login s (.ok resp) (.ok a)).1 = true ∧
        (Variant1.login s (.ok resp) (.ok a)).2 = none) ∧
    (∀ (s : Variant2.State) (r : Variant2.LoginResponse) (tok : String)
        (a : Variant2.Admin),
        r.success = true → r.token = some tok → tok ≠ "" → r.admin = some a →
        (Variant2.login s (.reply r)).1.admin = some a ∧
        (Variant2.login s (.reply r)).1.storage.token = some tok ∧
        Variant2.isAuthenticated (Variant2.login s (.reply r)).1 = true ∧
        (Variant2.login s (.reply r)).2 = none) := by
  constructor
  · intro s resp a
    simp [Variant1.login, Variant1.authApiLogin, Variant1.getCurrentAdmin,
      Variant1.isAuthenticated]
  · intro s r tok a hsucc htokeq htok hadm
    rcases r with ⟨succ, tok?, adm?, msg?⟩
    simp only at hsucc htokeq hadm
    subst hsucc htokeq hadm
    simp [Variant2.login, Variant2.saveToStorage, Variant2.isAuthenticated, htok]

theorem C3_witness :
    (Variant2.login
        { admin := none, isLoading := true, error := none,
          storage := { token := none, adminData := none } }
        (.reply { success := true, token := some "tok-A",
                  admin := some sampleAdmin2, message := none })).1.admin
      = some sampleAdmin2 ∧
    Variant2.isAuthenticated
        (Variant2.login
          { admin := none, isLoading := true, error := none,
            storage := { token := none, adminData := none } }
          (.reply { success := true, token := some "tok-A",
                    admin := some sampleAdmin2, message := none })).1 = true := by
  have h := C3_valid_login_authenticates.2
    { admin := none, isLoading := true, error := none,
      storage := { token := none, adminData := none } }
    { success := true, token := some "tok-A",
      admin := some sampleAdmin2, message := none }
    "tok-A" sampleAdmin2 rfl rfl (by decide) rfl
  exact ⟨h.1, h.2.2.1⟩

/-- C4: logout always ends with a fully empty Session (no Identity, no
Credential, no error, loading lowered) in both variants; in the persisted
variant the best-effort server logout outcome cannot influence the result
(its rejection is swallowed by `.catch`). -/
theorem C4_logout_always_empties :
    (∀ s : Variant1.State,
        Variant1.logout s =
          { admin := none, token := none, isLoading := false, error := none }) ∧
    (∀ (s : Variant2.State) (serverLogoutOk : Bool),
        Variant2.logout s serverLogoutOk =
          { admin := none, isLoading := false, error := none,
            storage := { token := none, adminData := none } }) :=
  ⟨fun _ => rfl, fun _ _ => rfl⟩

/-- C5: when storage holds a (truthy) token and a parseable admin but the
identity service rejects the stored credential on startup — the validate
call rejects, or replies without `success`/`admin` — `validateExistingToken`
ends with the Session empty, the storage cleared, the error null and the
loading flag false. -/
theorem C5_startup_reject_clears_silently :
    ∀ (s : Variant2.State) (tok : String) (a : Variant2.Admin)
      (svc : Variant2.ApiCall Variant2.ValidateResponse),
      s.storage.token = some tok → tok ≠ "" →
      s.storage.adminData = some (.parsed a) →
      Variant2.RejectsValidate svc →
      Variant2.validateExistingToken s svc =
        { admin := none, isLoading := false, error := none,
          storage := { token := none, adminData := none } } := by
  intro s tok a svc htokeq htok hadm hrej
  rcases s with ⟨adm, ld, err, tok?, sa?⟩
  simp only at htokeq hadm
  subst htokeq hadm
  rcases svc with m | r
  · simp [Variant2.validateExistingToken, Variant2.loadFromStorage,
      Variant2.clearStorage, Variant2.loadedFalsy, htok]
  · rcases r with ⟨succ, adm?, msg?⟩
    rcases hrej with hrej | hrej
    · simp only at hrej
      subst hrej
      simp [Variant2.validateExistingToken, Variant2.loadFromStorage,
        Variant2.clearStorage, Variant2.loadedFalsy, htok]
    · simp only at hrej
      subst hrej
      cases succ <;>
        simp [Variant2.validateExistingToken, Variant2.loadFromStorage,
          Variant2.clearStorage, Variant2.loadedFalsy, htok]

theorem C5_witness :
    Variant2.validateExistingToken
        { admin := none, isLoading := true, error := none,
          storage := { token := some "expired-tok",
                       adminData := some (.parsed sampleAdmin2) } }
        (.reply { success := false, admin := none, message := none })
      = { admin := none, isLoading := false, error := none,
          storage := { token := none, adminData := none } } :=
  C5_startup_reject_clears_silently _ "expired-tok" sampleAdmin2 _
    rfl (by decide) rfl (Or.inl rfl)

/-- C6: on an empty Session (no Identity) every Access Evaluator function is
total and returns its safe default: `hasRole` false for every role,
`isSuperAdmin`/`isRegularAdmin` false, `hasPermission` false for every
permission (also when an Identity is present but carries no permission
list), and `getRoleName` is `Guest`. -/
theorem C6_empty_session_evaluators_safe :
    ∀ (s1 : Variant1.State) (s2 : Variant2.State),
      s1.admin = none → s2.admin = none →
      (∀ r, Variant1.hasRole s1 r = false) ∧
      Variant1.isSuperAdmin s1 = false ∧
      Variant1.isRegularAdmin s1 = false ∧
      Variant1.getRoleName s1 = "Guest" ∧
      (∀ r, Variant2.hasRole s2 r = false) ∧
      (∀ p, Variant2.hasPermission s2 p = false) ∧
      Variant2.isSuperAdmin s2 = false ∧
      (∀ (s : Variant2.State) (a : Variant2.Admin) (p : String),
        s.admin = some a → a.permissions = none →
        Variant2.hasPermission s p = false) := by
  intro s1 s2 h1 h2
  refine ⟨fun r => ?_, ?_, ?_, ?_, fun r => ?_, fun p => ?_, ?_, ?_⟩
  · simp [Variant1.hasRole, h1]
  · simp [Variant1.isSuperAdmin, h1]
  · simp [Variant1.isRegularAdmin, h1]
  · simp [Variant1.getRoleName, h1]
  · simp [Variant2.hasRole, h2]
  · simp [Variant2.hasPermission, h2]
  · simp [Variant2.isSuperAdmin, h2]
  · intro s a p ha hp
    simp [Variant2.hasPermission, ha, hp]

theorem C6_witness :
    Variant1.hasRole Variant1.initialState 0 = false ∧
    Variant1.getRoleName Variant1.initialState = "Guest" ∧
    Variant2.hasPermission
      { admin := none, isLoading := false, error := none,
        storage := { token := none, adminData := none } } "users.read" = false := by
  have h := C6_empty_session_evaluators_safe Variant1.initialState
    { admin := none, isLoading := false, error := none,
      storage := { token := none, adminData := none } } rfl rfl
  exact ⟨h.1 0, h.2.2.2.1, h.2.2.2.2.2.1 "users.read"⟩

/-- C7: with an Identity present, `hasRole` is exact equality on the role
field (numeric in the session-only variant, case-sensitive string in the
persisted variant), and `isSuperAdmin` holds iff the role is the designated
super-admin value (0, respectively `super_admin`/`superadmin`). -/
theorem C7_role_checks_exact :
    (∀ (s : Variant1.State) (a : Variant1.Admin) (r : Int), s.admin = some a →
        ((Variant1.hasRole s r = true ↔ a.role = r) ∧
         (Variant1.isSuperAdmin s = true ↔ a.role = 0))) ∧
    (∀ (s : Variant2.State) (a : Variant2.Admin) (r : String), s.admin = some a →
        ((Variant2.hasRole s r = true ↔ a.role = r) ∧
         (Variant2.isSuperAdmin s = true ↔
           (a.role = "super_admin" ∨ a.role = "superadmin")))) := by
  constructor
  · intro s a r ha
    constructor
    · simp [Variant1.hasRole, ha]
    · simp [Variant1.isSuperAdmin, ha]
  · intro s a r ha
    constructor
    · simp [Variant2.hasRole, ha]
    · simp [Variant2.isSuperAdmin, ha]

theorem C7_witness :
    Variant1.isSuperAdmin
      { admin := some sampleAdmin1, token := some "tok-A",
        isLoading := false, error := none } = true ∧
    Variant2.hasRole
      { admin := some sampleAdmin2, isLoading := false, error := none,
        storage := { token := none, adminData := none } } "Admin" = false := by
  have h1 := (C7_role_checks_exact.1
    { admin := some sampleAdmin1, token := some "tok-A",
      isLoading := false, error := none } sampleAdmin1 0 rfl).2
  have h2 := (C7_role_checks_exact.2
    { admin := some sampleAdmin2, isLoading := false, error := none,
      storage := { token := none, adminData := none } } sampleAdmin2 "Admin" rfl).1
  constructor
  · exact h1.mpr rfl
  · rcases h : Variant2.hasRole
      { admin := some sampleAdmin2, isLoading := false, error := none,
        storage := { token := none, adminData := none } } "Admin" with _ | _
    · rfl
    · exact absurd (h2.mp h) (by decide)

/-- C8 counterexample: the claim fails on the code in three ways.  With
`ADMIN_KEY` holding the string `null` (non-empty, accepted by `JSON.parse`)
and a token present, `loadFromStorage` returns the credential together with
a null Identity — one value without the other — and clears nothing; with
only `TOKEN_KEY` present it returns (absent, absent) but leaves the
leftover token in storage instead of clearing it; and a saved empty-string
credential is read back as (absent, absent) because the empty string is
falsy. -/
theorem C8_counterexample :
    (Variant2.loadFromStorage
        { token := some "tok-A", adminData := some .parsedNull }).1
      = (some "tok-A", none) ∧
    (Variant2.loadFromStorage
        { token := some "tok-A", adminData := some .parsedNull }).2
      = { token := some "tok-A", adminData := some .parsedNull } ∧
    (Variant2.loadFromStorage { token := some "tok-A", adminData := none }).1
      = (none, none) ∧
    (Variant2.loadFromStorage { token := some "tok-A", adminData := none }).2.token
      = some "tok-A" ∧
    (Variant2.loadFromStorage
        (Variant2.saveToStorage { token := none, adminData := none } "" sampleAdmin2)).1
      = (none, none) := by
  decide

/-- C8 amended: `save(credential, identity)` followed by `load()` returns
the same pair for every non-empty credential; `clear()` followed by `load()`
returns (absent, absent); `load()` never returns an Identity value without
a credential; when the stored Identity is a non-empty string `JSON.parse`
rejects, `load()` returns (absent, absent) and clears both entries; but a
merely missing (or empty-string) entry is returned as (absent, absent) with
the remaining entries left in place, and a stored Identity parsing to null
is returned as a present credential with an absent Identity, again without
clearing — so `load()` does not always return both values or neither. -/
theorem C8_storage_roundtrip_amended :
    (∀ (st : Variant2.Storage) (tok : String) (a : Variant2.Admin), tok ≠ "" →
        Variant2.loadFromStorage (Variant2.saveToStorage st tok a)
          = ((some tok, some (.ofAdmin a)), Variant2.saveToStorage st tok a)) ∧
    (∀ st : Variant2.Storage,
        Variant2.loadFromStorage (Variant2.clearStorage st)
          = ((none, none), Variant2.clearStorage st)) ∧
    (∀ st : Variant2.Storage,
        (Variant2.loadFromStorage st).1.2.isSome = true →
        (Variant2.loadFromStorage st).1.1.isSome = true) ∧
    (∀ (st : Variant2.Storage) (tok : String),
        st.token = some tok → tok ≠ "" → st.adminData = some .corrupt →
        Variant2.loadFromStorage st
          = ((none, none), { token := none, adminData := none })) ∧
    (∀ (st : Variant2.Storage) (tok : String),
        st.token = some tok → tok ≠ "" → st.adminData = some .parsedNull →
        Variant2.loadFromStorage st = ((some tok, none), st)) := by
  refine ⟨?_, ?_, ?_, ?_, ?_⟩
  · intro st tok a htok
    simp [Variant2.loadFromStorage, Variant2.saveToStorage, htok]
  · intro st
    simp [Variant2.loadFromStorage, Variant2.clearStorage]
  · intro st
    rcases st with ⟨tok?, sa?⟩
    rcases tok? with _ | tok <;> rcases sa? with _ | sa <;>
      simp [Variant2.loadFromStorage]
    by_cases htok : tok = ""
    · simp [htok]
    · cases sa <;> simp [htok]
  · intro st tok htokeq htok hadm
    rcases st with ⟨tok?, sa?⟩
    simp only at htokeq hadm
    subst htokeq hadm
    simp [Variant2.loadFromStorage, Variant2.clearStorage, Variant2.loadedFalsy, htok]
  · intro st tok htokeq htok hadm
    rcases st with ⟨tok?, sa?⟩
    simp only at htokeq hadm
    subst htokeq hadm
    simp [Variant2.loadFromStorage, htok]

theorem C8_witness :
    Variant2.loadFromStorage
        (Variant2.saveToStorage { token := none, adminData := none }
          "tok-A" sampleAdmin2)
      = ((some "tok-A", some (.ofAdmin sampleAdmin2)),
         Variant2.saveToStorage { token := none, adminData := none }
           "tok-A" sampleAdmin2) ∧
    (Variant2.loadFromStorage
        { token := some "tok-B", adminData := some (.parsed sampleAdmin2) }).1.1.isSome
      = true ∧
    Variant2.loadFromStorage
        { token := some "tok-A", adminData := some .corrupt }
      = ((none, none), { token := none, adminData := none }) ∧
    Variant2.loadFromStorage
        { token := some "tok-C", adminData := some .parsedNull }
      = ((some "tok-C", none),
         { token := some "tok-C", adminData := some .parsedNull }) :=
  ⟨C8_storage_roundtrip_amended.1 { token := none, adminData := none }
      "tok-A" sampleAdmin2 (by decide),
   C8_storage_roundtrip_amended.2.2.1
      { token := some "tok-B", adminData := some (.parsed sampleAdmin2) }
      (by decide),
   C8_storage_roundtrip_amended.2.2.2.1
      { token := some "tok-A", adminData := some .corrupt }
      "tok-A" rfl (by decide) rfl,
   C8_storage_roundtrip_amended.2.2.2.2
      { token := some "tok-C", adminData := some .parsedNull }
      "tok-C" rfl (by decide) rfl⟩

/-- C9: logout is idempotent in both variants — a second logout from the
state a first logout produced yields exactly the same empty Session. -/
theorem C9_logout_idempotent :
    (∀ s : Variant1.State,
        Variant1.logout (Variant1.logout s) = Variant1.logout s) ∧
    (∀ (s : Variant2.State) (b1 b2 : Bool),
        Variant2.logout (Variant2.logout s b1) b2 = Variant2.logout s b1) :=
  ⟨fun _ => rfl, fun _ _ _ => rfl⟩

/-- C10: once the guard is past loading and the Session is authenticated, a
super-admin Session renders the protected content for every
`requiredRole`/`requiredPermission`, in both route-guard variants: each
denial branch is conjoined with `!isSuperAdmin()`. -/
theorem C10_superadmin_always_authorized :
    (∀ (s : Variant1.State) (requiredRole : Option Int),
        s.isLoading = false → Variant1.isAuthenticated s = true →
        Variant1.isSuperAdmin s = true →
        protectedRoute1 s requiredRole = .content) ∧
    (∀ (s : Variant2.State) (requiredRole requiredPermission : Option String),
        s.isLoading = false → Variant2.isAuthenticated s = true →
        Variant2.isSuperAdmin s = true →
        protectedRoute2 s requiredRole requiredPermission = .content) := by
  constructor
  · intro s rr hl ha hs
    simp [protectedRoute1, hl, ha, hs]
  · intro s rr rp hl ha hs
    simp [protectedRoute2, hl, ha, hs]

theorem C10_witness :
    protectedRoute1
        { admin := some sampleAdmin1, token := some "tok-A",
          isLoading := false, error := none } (some 1) = .content ∧
    protectedRoute2
        { admin := some { sampleAdmin2 with role := "super_admin" },
          isLoading := false, error := none,
          storage := { token := none, adminData := none } }
        (some "moderator") (some "users.write") = .content :=
  ⟨C10_superadmin_always_authorized.1
      { admin := some sampleAdmin1, token := some "tok-A",
        isLoading := false, error := none } (some 1) rfl (by decide) (by decide),
   C10_superadmin_always_authorized.2
      { admin := some { sampleAdmin2 with role := "super_admin" },
        isLoading := false, error := none,
        storage := { token := none, adminData := none } }
      (some "moderator") (some "users.write") rfl (by decide) (by decide)⟩
